import Mathlib

/-!
Shallow embedding of the storage transfer clients
(`s3_storage_client.py` and `local_storage_client.py`) and proofs about
their specified behavior.  Python strings are Lean `String`s, Python
`int`s are `Int`/`Nat` (they are unbounded in Python, so no wrap-around
modelling is needed), Python `dict`s are association lists with
last-write-wins lookup, raised exceptions are explicit `exn` results,
and `None` is `Option.none`.  String operations are implemented over the
underlying character lists so that all definitions evaluate by `decide`
and `rfl`.
-/

namespace S2P

/-- The character class of Python `str.isspace` (and of `str.strip` with
no argument): code points with Unicode bidirectional class WS, B or S,
or general category Zs.  Concretely: TAB LF VT FF CR (U+0009..U+000D),
the separators U+001C..U+001F, SPACE (U+0020), NEL (U+0085), NBSP
(U+00A0), Ogham space (U+1680), U+2000..U+200A, line and paragraph
separator (U+2028, U+2029), narrow NBSP (U+202F), medium mathematical
space (U+205F) and ideographic space (U+3000). -/
def pyIsSpace (c : Char) : Bool :=
  let n := c.toNat
  (9 ≤ n && n ≤ 13) || (28 ≤ n && n ≤ 32) || n == 133 || n == 160
    || n == 5760 || (8192 ≤ n && n ≤ 8202) || n == 8232 || n == 8233
    || n == 8239 || n == 8287 || n == 12288

/-- Python truthiness plus `str.isspace`: `not message or message.isspace()`
holds exactly when every character of the string is whitespace (an empty
string is falsy; `isspace` needs all characters to be whitespace). -/
def pyBlank (s : String) : Bool :=
  s.data.all pyIsSpace

/-- Python `str.lower` (the header keys involved are ASCII). -/
def pyLower (s : String) : String :=
  String.mk (s.data.map Char.toLower)

/-- Python `str.strip()`: remove leading and trailing whitespace. -/
def pyStrip (s : String) : String :=
  String.mk
    (((s.data.dropWhile pyIsSpace).reverse.dropWhile pyIsSpace).reverse)

/-- Model of `k.replace("\n", " ")` for a single-character pattern. -/
def newlineToSpace (s : String) : String :=
  String.mk (s.data.map (fun c => if c = '\n' then ' ' else c))

/-- Python `dict` built from an association list: later bindings overwrite
earlier ones, and lookup of a missing key is `none` (a `KeyError` at the
call site). -/
def dictGet {α : Type} (l : List (String × α)) (k : String) : Option α :=
  l.foldl (fun acc p => if p.1 = k then some p.2 else acc) none

/-- Model of `RE_MULTIPLE_SPACES.sub(" ", v)`: every maximal run of one or more
space characters is replaced by a single space (only the space character
is involved, exactly as in the regex source text). -/
def collapseSpaces (s : String) : String :=
  String.mk ((s.data.foldl
    (fun acc c => if c = ' ' && acc.head? == some ' ' then acc else c :: acc)
    []).reverse)

/-- Python `sep.join(l)`. -/
def strJoin (sep : String) : List String → String
  | [] => ""
  | [x] => x
  | x :: y :: rest => x ++ sep ++ strJoin sep (y :: rest)

/-- Python string comparison: lexicographic on code points. -/
def charListLt : List Char → List Char → Bool
  | [], [] => false
  | [], _ :: _ => true
  | _ :: _, [] => false
  | a :: as, b :: bs =>
    if a.toNat < b.toNat then true
    else if b.toNat < a.toNat then false
    else charListLt as bs

/-- Python `<` on strings. -/
def strLt (a b : String) : Bool :=
  charListLt a.data b.data

/-- Insertion into an ascending list under the code-point order on strings,
used to model Python `sorted` (keys are unique, so stability is moot). -/
def insertAsc (s : String) : List String → List String
  | [] => [s]
  | t :: rest => if strLt t s then t :: insertAsc s rest else s :: t :: rest

/-- Python `sorted` on a list of strings (ascending by code points). -/
def pySorted (l : List String) : List String :=
  l.foldr insertAsc []

/-- Header values in the Python code are either a string or a list of
strings (`Union[str, List[str]]`). -/
inductive HVal where
  | str (s : String)
  | list (l : List String)
deriving DecidableEq, Repr

/-- The `isinstance(v, list)` branch: a list value is joined with `","`. -/
def hvalJoin : HVal → String
  | .str s => s
  | .list l => strJoin "," l

/-- Model of `SnowflakeS3RestClient._construct_canonicalized_and_signed_headers`.
Faithful transcription: `low_key_dict` lowers the keys, but the sort and
the subsequent lookups use the original-cased keys, so a key containing
an upper-case letter makes `low_key_dict[k]` raise `KeyError`, modelled
here as `none`.  On success the result is the canonical header block and
the `;`-joined signed-headers string. -/
def construct_canonicalized_and_signed_headers
    (headers : List (String × HVal)) : Option (String × String) :=
  let low_key_dict := headers.map (fun p => (pyLower p.1, p.2))
  let sorted_headers := pySorted (headers.map (·.1))
  (sorted_headers.mapM (fun k => (dictGet low_key_dict k).map (fun v => (k, v)))).map
    (fun pairs =>
      let res := pairs.map (fun p =>
        let v := hvalJoin p.2
        let k := newlineToSpace p.1
        pyStrip k ++ ":" ++ collapseSpaces (pyStrip v))
      let ans := strJoin "\n" res
      let ans := if ans ≠ "" then ans ++ "\n" else ans
      (ans, strJoin ";" sorted_headers))

/-- The result of a Python call: either a returned value or a raised
exception, identified by its class name. -/
inductive PyResult (α : Type) where
  | ok (a : α)
  | exn (name : String)
deriving DecidableEq, Repr

/-- The outcome of `xml.etree.cElementTree.fromstring` on the response
body, abstracted to exactly what `_has_expired_token` observes: the parse
can fail (`ParseError`), or succeed with no `Code` child
(`err.find("Code")` is `None`), or succeed with a `Code` child whose text
is `text` (`None` when the element is empty). -/
inductive XmlCodeParse where
  | parseError
  | noCodeElem
  | codeElem (text : Option String)
deriving DecidableEq, Repr

/-- The expired-token marker `EXPIRED_TOKEN`. -/
def EXPIRED_TOKEN : String := "ExpiredToken"

/-- Model of `SnowflakeS3RestClient._has_expired_token`, transcribed branch by
branch.  `status_code` and `text` come from the response; `parsed` is the
outcome of `ET.fromstring(message)` on that same text.  A non-400 status
returns `False`; an empty or all-whitespace body returns `False`; then
the body is parsed unconditionally, so a malformed body raises
`ParseError` and a body without a `Code` element raises `AttributeError`
(`None.text`); otherwise the `Code` text is compared with the marker
(`None == "ExpiredToken"` is `False` in Python). -/
def has_expired_token (status_code : Nat) (text : String)
    (parsed : XmlCodeParse) : PyResult Bool :=
  if status_code ≠ 400 then .ok false
  else if pyBlank text then .ok false
  else match parsed with
    | .parseError => .exn "ParseError"
    | .noCodeElem => .exn "AttributeError"
    | .codeElem t => .ok (t == some EXPIRED_TOKEN)

/-- Model of `SnowflakeS3RestClient._construct_string_to_sign`: assembles the
string-to-sign (four lines joined by newlines) and the scope, with the
short date being the first eight characters of `amzdate`. -/
def construct_string_to_sign (region_name service_name amzdate : String)
    (canonical_request_hash : String) : String × String :=
  let short_amzdate := String.mk (amzdate.data.take 8)
  let scope := short_amzdate ++ "/" ++ region_name ++ "/" ++ service_name
    ++ "/aws4_request"
  (strJoin "\n"
    ["AWS4-HMAC-SHA256", amzdate, scope, canonical_request_hash], scope)

/-- Byte strings, as lists of byte values. -/
abbrev Bytes := List Nat

/-- UTF-8 encoding of a string (`str.encode("utf-8")`). -/
def utf8Bytes (s : String) : Bytes :=
  s.toUTF8.toList.map (fun b => b.toNat)

/-- The signing-key derivation inside
`generate_authenticated_url_and_args_v4`, parameterised by the
HMAC-SHA-256 primitive `_sign_bytes` (a keyed MAC from `bytes` and a
string to `bytes`): `kDate` is keyed by `"AWS4" + secret` over the short
date, then chained over the region, the literal service `"s3"`, and the
literal `"aws4_request"`. -/
def derive_signing_key (hmacSign : Bytes → String → Bytes)
    (secret_key : String) (amzdate : String) (region_name : String) : Bytes :=
  let short_amzdate := String.mk (amzdate.data.take 8)
  let kDate := hmacSign (utf8Bytes ("AWS4" ++ secret_key)) short_amzdate
  let kRegion := hmacSign kDate region_name
  let kService := hmacSign kRegion "s3"
  hmacSign kService "aws4_request"

/-- Modelled from the spec (for refinement comparison only): "four chained
HMAC derivations (date → region → service → aws4_request)" starting from
`"AWS4" + secret`. -/
def derive_signing_key_spec (hmacSign : Bytes → String → Bytes)
    (secret_key date region service : String) : Bytes :=
  hmacSign
    (hmacSign (hmacSign (hmacSign (utf8Bytes ("AWS4" ++ secret_key)) date)
      region) service)
    "aws4_request"

/-- The `_range` string computed in `download_chunk` on the multi-chunk
path: a closed range for every chunk before the last one and an
open-ended range for the last one.  The header sent is
`Range: bytes={_range}`. -/
def download_chunk_range (chunk_id num_of_chunks chunk_size : Nat) : String :=
  if chunk_id < num_of_chunks - 1 then
    toString (chunk_id * chunk_size) ++ "-"
      ++ toString ((chunk_id + 1) * chunk_size - 1)
  else
    toString (chunk_id * chunk_size) ++ "-"

/-- The multipart-upload fields of `SnowflakeS3RestClient`: `upload_id`
and `etags`, both initialised to `None` in `__init__`. -/
structure MultipartState where
  upload_id : Option String
  etags : Option (List (Option String))
deriving DecidableEq, Repr

/-- The state of the client right after `__init__`. -/
def initial_state : MultipartState :=
  { upload_id := none, etags := none }

/-- State effect of the 200 branch of `_initiate_multipart_upload`:
`upload_id` is set from the response and `etags` becomes
`[None] * num_of_chunks`. -/
def initiate_multipart_upload_success (s : MultipartState)
    (num_of_chunks : Nat) (uid : String) : MultipartState :=
  { s with upload_id := some uid,
           etags := some (List.replicate num_of_chunks none) }

/-- State effect of the 200 branch of the multipart path of
`_upload_chunk`: `self.etags[chunk_id] = response.headers["ETag"]`.
`None` for `etags` (`TypeError`) and an out-of-range index (`IndexError`)
both raise, modelled as `none`. -/
def upload_chunk_success (s : MultipartState) (chunk_id : Nat)
    (etag : String) : Option MultipartState :=
  match s.etags with
  | none => none
  | some l =>
    if chunk_id < l.length then
      some { s with etags := some (l.set chunk_id (some etag)) }
    else none

/-- Events of the multipart phase that touch (or could touch) the
multipart state: a successful part upload, completion, abort.  Neither
`_complete_multipart_upload` nor `_abort_multipart_upload` assigns to
`upload_id` or `etags`, so their state effect is the identity. -/
inductive MultipartEvent where
  | part (chunk_id : Nat) (etag : String)
  | complete
  | abort
deriving DecidableEq, Repr

/-- Applying a sequence of multipart events to a state. -/
def apply_events (s : MultipartState) : List MultipartEvent → Option MultipartState
  | [] => some s
  | .part i e :: rest => (upload_chunk_success s i e).bind (apply_events · rest)
  | .complete :: rest => apply_events s rest
  | .abort :: rest => apply_events s rest

/-- Status values of `ResultStatus` used by the two clients. -/
inductive ResultStatus where
  | UPLOADED
  | DOWNLOADED
  | NOT_FOUND_FILE
  | ERROR
deriving DecidableEq, Repr

/-- Fields of `EncryptionMetadata(key=..., iv=..., matdesc=...)` as constructed in
`get_file_header`; each field comes from `metadata.get(...)` and may be
`None`. -/
structure EncryptionMetadata where
  key : Option String
  iv : Option String
  matdesc : Option String
deriving DecidableEq, Repr

/-- Result type `FileHeader(digest=..., content_length=..., encryption_metadata=...)`. -/
structure FileHeader where
  digest : Option String
  content_length : Int
  encryption_metadata : Option EncryptionMetadata
deriving DecidableEq, Repr

/-- Lookup in `requests` response headers, a case-insensitive mapping: it
lowers both the stored keys and the queried key. -/
def ciGet (headers : List (String × String)) (k : String) : Option String :=
  dictGet (headers.map (fun p => (pyLower p.1, p.2))) (pyLower k)

/-- Python truthiness of `metadata.get(...)`: `None` and the empty string
are falsy. -/
def pyTruthyOptStr : Option String → Bool
  | none => false
  | some s => s ≠ ""

/-- Decimal digit accumulation; `none` on a non-digit or an empty list. -/
def digitsToNat : List Char → Option Nat
  | [] => none
  | l => l.foldl (fun acc c =>
      acc.bind (fun n =>
        if c.isDigit then some (n * 10 + (c.toNat - 48)) else none))
      (some 0)

/-- Python `int(s)` for a string argument: surrounding whitespace is
stripped, an optional sign precedes the digits, anything else raises
`ValueError` (`none`). -/
def pyIntParse (s : String) : Option Int :=
  match (pyStrip s).data with
  | '-' :: rest => (digitsToNat rest).map (fun n => -(n : Int))
  | '+' :: rest => (digitsToNat rest).map (fun n => (n : Int))
  | l => (digitsToNat l).map (fun n => (n : Int))

/-- Python `int(x)` on the result of `metadata.get("Content-Length")`:
`int(None)` raises `TypeError`; a string is stripped of surrounding
whitespace and parsed as a decimal integer, raising `ValueError` when it
does not parse. -/
def pyIntOfGet : Option String → PyResult Int
  | none => .exn "TypeError"
  | some s =>
    match pyIntParse s with
    | none => .exn "ValueError"
    | some n => .ok n

/-- Model of `SnowflakeS3RestClient.get_file_header`, given the response status
code and headers.  Returns the function result (a returned
`Option FileHeader` or a raised exception) together with the value, if
any, written to `self.meta.result_status`.  On 200 the status is written
before the header parse, so it is `UPLOADED` even when `int(...)` raises;
on 404 the status is `NOT_FOUND_FILE` and `None` is returned; otherwise
`raise_for_status` raises for 4xx/5xx and the function falls through
returning `None` (status untouched) for any other code. -/
def get_file_header (status_code : Nat) (headers : List (String × String)) :
    PyResult (Option FileHeader) × Option ResultStatus :=
  if status_code = 200 then
    let km := ciGet headers ("x-amz-meta-" ++ "x-amz-key")
    let encryption_metadata : Option EncryptionMetadata :=
      if pyTruthyOptStr km then
        some { key := km,
               iv := ciGet headers ("x-amz-meta-" ++ "x-amz-iv"),
               matdesc := ciGet headers ("x-amz-meta-" ++ "x-amz-matdesc") }
      else none
    match pyIntOfGet (ciGet headers "Content-Length") with
    | .exn e => (.exn e, some .UPLOADED)
    | .ok n =>
      (.ok (some { digest := ciGet headers ("x-amz-meta-" ++ "sfc-digest"),
                   content_length := n,
                   encryption_metadata := encryption_metadata }),
       some .UPLOADED)
  else if status_code = 404 then
    (.ok none, some .NOT_FOUND_FILE)
  else if 400 ≤ status_code ∧ status_code < 600 then
    (.exn "HTTPError", none)
  else
    (.ok none, none)

/-- One `Part` element of the document built by
`_complete_multipart_upload`: an `ETag` child whose text is the etag slot
value (possibly `None`, which `ElementTree` serialises as an empty
element) and a `PartNumber` child whose text is the 1-based index.  The
tags are fixed in the code, so only the texts vary. -/
structure XmlPart where
  etag_text : Option String
  part_number_text : String
deriving DecidableEq, Repr

/-- The body of the `for idx, etag_str in enumerate(self.etags)` loop of
`_complete_multipart_upload`, with `idx` starting at `idx0`: one `Part`
per slot, in slot order, with 1-based part numbers. -/
def complete_parts (idx0 : Nat) : List (Option String) → List XmlPart
  | [] => []
  | e :: rest =>
    { etag_text := e, part_number_text := toString (idx0 + 1) }
      :: complete_parts (idx0 + 1) rest

/-- The `CompleteMultipartUpload` document built from `self.etags` by the
enumerate loop (`idx` starts at 0). -/
def complete_multipart_doc (etags : List (Option String)) : List XmlPart :=
  complete_parts 0 etags

/-- Model of `SnowflakeS3RestClient._complete_multipart_upload` up to the network
send: the document is always built and the POST is always issued — there
is no check that every etag slot is populated, so the result is the
document handed to the request, never a local rejection. -/
def complete_multipart_upload (etags : List (Option String)) :
    PyResult (List XmlPart) :=
  .ok (complete_multipart_doc etags)

/-- The fields of `SnowflakeFileMeta` that the local client touches. -/
structure LocalMeta where
  src_file_name : String
  dst_file_name : String
  upload_size : Int
  dst_file_size : Int
  result_status : Option ResultStatus
deriving DecidableEq, Repr

/-- A local filesystem: paths mapped to byte contents, most recent write
first. -/
abbrev FS := List (String × Bytes)

/-- Reading a path (most recent write wins). -/
def fsGet (fs : FS) (p : String) : Option Bytes :=
  (fs.find? (fun q => q.1 = p)).map (·.2)

/-- Writing a path (`open(..., "wb")` truncates, so the new content
replaces any old one). -/
def fsWrite (fs : FS) (p : String) (content : Bytes) : FS :=
  (p, content) :: fs

/-- Whether a path string starts with the separator `/`. -/
def startsWithSlash (s : String) : Bool :=
  s.data.head? == some '/'

/-- Whether a path string ends with the separator `/`. -/
def endsWithSlash (s : String) : Bool :=
  s.data.getLast? == some '/'

/-- Model of `os.path.join` for the two-argument uses in the local client: an
absolute second component replaces the first, otherwise the two are
joined with exactly one separator. -/
def osPathJoin (a b : String) : String :=
  if startsWithSlash b then b
  else if endsWithSlash a || a = "" then a ++ b
  else a ++ "/" ++ b

/-- Model of `os.path.basename`: the suffix after the last separator. -/
def osPathBasename (p : String) : String :=
  String.mk ((p.data.reverse.takeWhile (fun c => c ≠ '/')).reverse)

/-- Slicing `meta.src_file_name[1:]` when the name starts with the separator. -/
def stripLeadingSep (s : String) : String :=
  if startsWithSlash s then String.mk (s.data.drop 1) else s

/-- Model of `SnowflakeLocalStorageClient._upload_file_with_retry`: the source
bytes are copied to `join(stage location, dst_file_name)`, then
`dst_file_size` is set to the declared `upload_size` and the status to
`UPLOADED`. -/
def upload_file_with_retry (fs : FS) (stage_location : String)
    (src_content : Bytes) (meta : LocalMeta) : FS × LocalMeta :=
  let dst := osPathJoin stage_location meta.dst_file_name
  (fsWrite fs dst src_content,
   { meta with dst_file_size := meta.upload_size,
               result_status := some .UPLOADED })

/-- Model of `SnowflakeLocalStorageClient._download_file`: the source bytes are
copied to `join(local_location, basename(dst_file_name))`, then
`dst_file_size` is set to `os.stat(full_dst_file_name).st_size` — the
size of the file just written — and the status to `DOWNLOADED`.  A
missing source file raises (`none`). -/
def download_file (fs : FS) (stage_location local_location : String)
    (meta : LocalMeta) : Option (FS × LocalMeta) :=
  let full_src_file_name :=
    osPathJoin stage_location (stripLeadingSep meta.src_file_name)
  let full_dst_file_name :=
    osPathJoin local_location (osPathBasename meta.dst_file_name)
  (fsGet fs full_src_file_name).map (fun content =>
    let fs' := fsWrite fs full_dst_file_name content
    let statSize : Int := ((fsGet fs' full_dst_file_name).getD []).length
    (fs', { meta with dst_file_size := statSize,
                      result_status := some .DOWNLOADED }))

/-!  Theorems settling the claims. -/

/-- Claim C1, evaluated at the failing input.  The claim says every
header map canonicalizes to lower-cased names sorted by lower-cased
name, in particular the set `{X-Amz-Date, host, X-Amz-Content-Sha256}`.
The code instead sorts the original-cased keys and then looks each
original-cased key up in the dictionary whose keys were lower-cased, so
this very input raises `KeyError` (result `none`); the intended
behaviour is only reached when the caller pre-lowers every key, as shown
by the second conjunct. -/
theorem c1_mixed_case_headers_raise_keyerror :
    construct_canonicalized_and_signed_headers
      [("X-Amz-Date", .str "d"), ("host", .str "h"),
       ("X-Amz-Content-Sha256", .str "s")] = none
    ∧ construct_canonicalized_and_signed_headers
      [("x-amz-date", .str "d"), ("host", .str "h"),
       ("x-amz-content-sha256", .str "s")] =
      some ("host:h\nx-amz-content-sha256:s\nx-amz-date:d\n",
        "host;x-amz-content-sha256;x-amz-date") := by
  decide

/-- Claim C3: the expired-token classifier returns `True` exactly for a
400 response whose (non-blank) body parses to the structured error
document with `Code` text equal to the marker `ExpiredToken`, and it
returns `False` for every response whose status code is not 400. -/
theorem c3_expired_token_classification :
    ∀ (status_code : Nat) (text : String) (parsed : XmlCodeParse),
      (has_expired_token status_code text parsed = .ok true ↔
        status_code = 400 ∧ pyBlank text = false ∧
          parsed = .codeElem (some EXPIRED_TOKEN))
      ∧ (status_code ≠ 400 →
          has_expired_token status_code text parsed = .ok false) := by
  intro status_code text parsed
  unfold has_expired_token
  by_cases hsc : status_code = 400
  · subst hsc
    simp only [ne_eq, not_true_eq_false, if_false, ite_false, reduceIte]
    by_cases hb : pyBlank text
    · simp [hb]
    · simp only [hb, Bool.false_eq_true, if_false, reduceIte]
      cases parsed with
      | parseError => simp
      | noCodeElem => simp
      | codeElem t => simp
  · simp [hsc]

/-- Witness for C3: a 400 response carrying the structured expired-token
document is classified `True`, and a 403 response is classified
`False`. -/
theorem c3_expired_token_classification_witness :
    has_expired_token 400 "<Error><Code>ExpiredToken</Code></Error>"
      (.codeElem (some "ExpiredToken")) = .ok true
    ∧ has_expired_token 403 "x" .parseError = .ok false := by
  constructor
  · exact (c3_expired_token_classification 400
      "<Error><Code>ExpiredToken</Code></Error>"
      (.codeElem (some "ExpiredToken"))).1.mpr ⟨rfl, by decide, rfl⟩
  · exact (c3_expired_token_classification 403 "x" .parseError).2 (by decide)

/-- Claim C10: the classifier returns `False` for every non-400 response
and for every 400 response with an empty or all-whitespace body, but a
400 response with any other body is parsed unconditionally, so a
malformed body raises `ParseError` and a well-formed body without a
`Code` element raises `AttributeError` instead of returning `False`. -/
theorem c10_expired_token_partiality :
    ∀ (status_code : Nat) (text : String) (parsed : XmlCodeParse),
      (status_code ≠ 400 →
        has_expired_token status_code text parsed = .ok false)
      ∧ (status_code = 400 → pyBlank text = true →
        has_expired_token status_code text parsed = .ok false)
      ∧ (status_code = 400 → pyBlank text = false →
        parsed = .parseError →
        has_expired_token status_code text parsed = .exn "ParseError")
      ∧ (status_code = 400 → pyBlank text = false →
        parsed = .noCodeElem →
        has_expired_token status_code text parsed = .exn "AttributeError") := by
  intro status_code text parsed
  refine ⟨fun hsc => by simp [has_expired_token, hsc],
    fun hsc hb => by simp [has_expired_token, hsc, hb],
    fun hsc hb hp => by simp [has_expired_token, hsc, hb, hp],
    fun hsc hb hp => by simp [has_expired_token, hsc, hb, hp]⟩

/-- Witness for C10: concrete responses reaching each branch — a 500, a
space-only 400 and a vertical-tab-only 400 (Python `str.isspace` also
holds of `"\x0b"`) return `False`, a 400 with a malformed body raises
`ParseError`, a 400 with a `Code`-less body raises `AttributeError`. -/
theorem c10_expired_token_partiality_witness :
    has_expired_token 500 "boom" .parseError = .ok false
    ∧ has_expired_token 400 " " .parseError = .ok false
    ∧ has_expired_token 400 "\x0b" .parseError = .ok false
    ∧ has_expired_token 400 "<oops" .parseError = .exn "ParseError"
    ∧ has_expired_token 400 "<Error/>" .noCodeElem = .exn "AttributeError" := by
  refine ⟨(c10_expired_token_partiality 500 "boom" .parseError).1 (by decide),
    (c10_expired_token_partiality 400 " " .parseError).2.1 rfl (by decide),
    (c10_expired_token_partiality 400 "\x0b" .parseError).2.1 rfl (by decide),
    (c10_expired_token_partiality 400 "<oops" .parseError).2.2.1 rfl (by decide) rfl,
    (c10_expired_token_partiality 400 "<Error/>" .noCodeElem).2.2.2 rfl (by decide) rfl⟩

/-- Claim C5: on the multi-chunk download path, every chunk before the
last sends the closed range `i*C-((i+1)*C-1)` and the last chunk sends
the open-ended range `start-`. -/
theorem c5_download_chunk_ranges :
    ∀ (chunk_id num_of_chunks chunk_size : Nat),
      1 < num_of_chunks → 0 < chunk_size →
      (chunk_id < num_of_chunks - 1 →
        download_chunk_range chunk_id num_of_chunks chunk_size =
          toString (chunk_id * chunk_size) ++ "-"
            ++ toString ((chunk_id + 1) * chunk_size - 1))
      ∧ (chunk_id = num_of_chunks - 1 →
        download_chunk_range chunk_id num_of_chunks chunk_size =
          toString (chunk_id * chunk_size) ++ "-") := by
  intro chunk_id num_of_chunks chunk_size _ _
  constructor
  · intro h
    simp [download_chunk_range, h]
  · intro h
    have : ¬ chunk_id < num_of_chunks - 1 := by omega
    simp [download_chunk_range, this]

/-- Witness for C5: with three chunks of size 100 the ranges are `0-99`,
`100-199` and the open-ended `200-`. -/
theorem c5_download_chunk_ranges_witness :
    download_chunk_range 0 3 100 = "0-99"
    ∧ download_chunk_range 1 3 100 = "100-199"
    ∧ download_chunk_range 2 3 100 = "200-" := by
  refine ⟨?_, ?_, ?_⟩
  · exact ((c5_download_chunk_ranges 0 3 100 (by decide) (by decide)).1
      (by decide)).trans (by decide)
  · exact ((c5_download_chunk_ranges 1 3 100 (by decide) (by decide)).1
      (by decide)).trans (by decide)
  · exact ((c5_download_chunk_ranges 2 3 100 (by decide) (by decide)).2
      (by decide)).trans (by decide)

/-- Claim C6: the signing key is the four chained HMAC-SHA-256
derivations starting from `"AWS4" + secret`, keyed successively over the
eight-character date, the region, the service name `"s3"` and the
literal `"aws4_request"` (for any HMAC primitive); the string-to-sign is
the algorithm identifier, the timestamp, the scope
`date/region/service/aws4_request` with the date being the first eight
characters of the timestamp, and the canonical-request hash, joined by
newlines, and the scope is returned alongside. -/
theorem c6_signing_key_and_string_to_sign :
    ∀ (hmacSign : Bytes → String → Bytes)
      (secret_key amzdate region_name service_name h : String),
      derive_signing_key hmacSign secret_key amzdate region_name =
        derive_signing_key_spec hmacSign secret_key
          (String.mk (amzdate.data.take 8)) region_name "s3"
      ∧ construct_string_to_sign region_name service_name amzdate h =
        ("AWS4-HMAC-SHA256" ++ "\n" ++ amzdate ++ "\n"
          ++ (String.mk (amzdate.data.take 8) ++ "/" ++ region_name ++ "/"
            ++ service_name ++ "/aws4_request") ++ "\n" ++ h,
         String.mk (amzdate.data.take 8) ++ "/" ++ region_name ++ "/"
           ++ service_name ++ "/aws4_request") := by
  intro hmacSign secret_key amzdate region_name service_name h
  constructor
  · rfl
  · simp [construct_string_to_sign, strJoin, String.append_assoc]

/-- Helper: the guarded etag-slot write of `_upload_chunk`, on success,
requires the index to be in range, leaves `upload_id` untouched and
replaces `etags` by the pointwise update. -/
theorem upload_chunk_success_spec (s : MultipartState)
    (l : List (Option String)) (i : Nat) (e : String) (t : MultipartState)
    (hl : s.etags = some l) (h : upload_chunk_success s i e = some t) :
    i < l.length ∧ t.upload_id = s.upload_id
      ∧ t.etags = some (l.set i (some e)) := by
  simp only [upload_chunk_success, hl] at h
  by_cases hi : i < l.length
  · rw [if_pos hi] at h
    injection h with h
    subst h
    exact ⟨hi, rfl, rfl⟩
  · rw [if_neg hi] at h
    exact absurd h (by simp)

/-- Helper: any sequence of multipart events preserves `upload_id` and
the length of the etags list. -/
theorem apply_events_preserves (uid : String) (n : Nat) :
    ∀ (events : List MultipartEvent) (s s' : MultipartState),
      s.upload_id = some uid → (∃ l, s.etags = some l ∧ l.length = n) →
      apply_events s events = some s' →
      s'.upload_id = some uid ∧ ∃ l, s'.etags = some l ∧ l.length = n := by
  intro events
  induction events with
  | nil =>
    intro s s' h1 h2 h3
    simp only [apply_events, Option.some.injEq] at h3
    subst h3
    exact ⟨h1, h2⟩
  | cons ev rest ih =>
    intro s s' h1 h2 h3
    obtain ⟨l, hl, hlen⟩ := h2
    cases ev with
    | part i e =>
      simp only [apply_events] at h3
      rcases hu : upload_chunk_success s i e with _ | t
      · rw [hu] at h3
        simp at h3
      · rw [hu] at h3
        simp only [Option.some_bind] at h3
        obtain ⟨_, htu, hte⟩ := upload_chunk_success_spec s l i e t hl hu
        exact ih t s' (htu.trans h1)
          ⟨l.set i (some e), hte, (List.length_set ..).trans hlen⟩ h3
    | complete =>
      simp only [apply_events] at h3
      exact ih s s' h1 ⟨l, hl, hlen⟩ h3
    | abort =>
      simp only [apply_events] at h3
      exact ih s s' h1 ⟨l, hl, hlen⟩ h3

/-- Claim C7: after a successful initiation the etags list has exactly
`num_of_chunks` slots, and this, together with a non-none `upload_id`
equal to the remote-assigned identifier, is preserved by every sequence
of part uploads (and by completion and abort, which never assign to
either field, so `upload_id` is never cleared here); moreover each
successful part upload for chunk `i` writes only slot `i`. -/
theorem c7_multipart_state_invariant :
    (∀ (num_of_chunks : Nat) (uid : String) (events : List MultipartEvent)
      (s' : MultipartState),
      apply_events
        (initiate_multipart_upload_success initial_state num_of_chunks uid)
        events = some s' →
      s'.upload_id = some uid
        ∧ ∃ l, s'.etags = some l ∧ l.length = num_of_chunks)
    ∧ (∀ (s : MultipartState) (l : List (Option String)) (i : Nat)
        (e : String) (t : MultipartState),
      s.etags = some l → upload_chunk_success s i e = some t →
      t.upload_id = s.upload_id
        ∧ t.etags = some (l.set i (some e))
        ∧ (l.set i (some e)).length = l.length
        ∧ (∀ j, j ≠ i → (l.set i (some e)).get? j = l.get? j)) := by
  constructor
  · intro n uid events s' h
    exact apply_events_preserves uid n events _ s' rfl
      ⟨List.replicate n none, rfl, List.length_replicate ..⟩ h
  · intro s l i e t hl h
    obtain ⟨_, htu, hte⟩ := upload_chunk_success_spec s l i e t hl h
    exact ⟨htu, hte, List.length_set .., fun j hj =>
      List.get?_set_ne _ _ (Ne.symm hj)⟩

/-- Witness for C7: two chunks, one successful part upload for slot 0
followed by completion; the invariant conclusions hold at the resulting
state. -/
theorem c7_multipart_state_invariant_witness :
    ({ upload_id := some "u", etags := some [some "e", none] }
        : MultipartState).upload_id = some "u"
    ∧ ∃ l, ({ upload_id := some "u", etags := some [some "e", none] }
        : MultipartState).etags = some l ∧ l.length = 2 :=
  c7_multipart_state_invariant.1 2 "u" [.part 0 "e", .complete] _ (by decide)

/-- Claim C4 counterexample: a 200 response whose key-material metadata
field is present but holds the empty string (Python falsiness) yields a
FileHeader with no EncryptionMetadata, refuting the claimed
"if and only if the key-material metadata field is present". -/
theorem c4_counterexample_present_empty_key :
    ciGet [("Content-Length", "10"), ("x-amz-meta-x-amz-key", "")]
      ("x-amz-meta-" ++ "x-amz-key") = some ""
    ∧ get_file_header 200
        [("Content-Length", "10"), ("x-amz-meta-x-amz-key", "")] =
      (.ok (some { digest := none, content_length := 10,
                   encryption_metadata := none }),
       some .UPLOADED) := by
  decide

/-- Claim C4 (amended): a 404 probe returns `None` with job status
not-found and raises nothing; a 200 probe whose `Content-Length` header
parses returns a FileHeader with the digest and content length taken
from the reserved headers, with EncryptionMetadata reconstructed if and
only if the key-material metadata field is present with a non-empty
value. -/
theorem c4_probe_semantics :
    ∀ (headers : List (String × String)),
      get_file_header 404 headers = (.ok none, some .NOT_FOUND_FILE)
      ∧ ∀ (n : Int),
        pyIntOfGet (ciGet headers "Content-Length") = .ok n →
        get_file_header 200 headers =
          (.ok (some
            { digest := ciGet headers ("x-amz-meta-" ++ "sfc-digest"),
              content_length := n,
              encryption_metadata :=
                if pyTruthyOptStr
                    (ciGet headers ("x-amz-meta-" ++ "x-amz-key")) then
                  some { key := ciGet headers ("x-amz-meta-" ++ "x-amz-key"),
                         iv := ciGet headers ("x-amz-meta-" ++ "x-amz-iv"),
                         matdesc :=
                           ciGet headers ("x-amz-meta-" ++ "x-amz-matdesc") }
                else none }),
           some .UPLOADED) := by
  intro headers
  constructor
  · simp [get_file_header]
  · intro n h
    simp [get_file_header, h]

/-- Witness for C4: a concrete 200 response with all reserved headers
set yields the fully populated FileHeader. -/
theorem c4_probe_semantics_witness :
    get_file_header 200
      [("Content-Length", "10"), ("x-amz-meta-sfc-digest", "D"),
       ("x-amz-meta-x-amz-key", "K"), ("x-amz-meta-x-amz-iv", "V"),
       ("x-amz-meta-x-amz-matdesc", "M")] =
    (.ok (some { digest := some "D", content_length := 10,
                 encryption_metadata :=
                   some { key := some "K", iv := some "V",
                          matdesc := some "M" } }),
     some .UPLOADED) :=
  ((c4_probe_semantics
    [("Content-Length", "10"), ("x-amz-meta-sfc-digest", "D"),
     ("x-amz-meta-x-amz-key", "K"), ("x-amz-meta-x-amz-iv", "V"),
     ("x-amz-meta-x-amz-matdesc", "M")]).2 10 (by decide)).trans (by decide)

/-- Claim C9: a probe that receives a 200 response writes
`ResultStatus.UPLOADED` to the job — the very same value a completed
upload writes (shown here for the upload of the local backend) — not a
distinct probed status. -/
theorem c9_probe_200_marks_uploaded :
    ∀ (headers : List (String × String)) (fs : FS) (stage_location : String)
      (src_content : Bytes) (meta : LocalMeta),
      (get_file_header 200 headers).2 = some ResultStatus.UPLOADED
      ∧ (upload_file_with_retry fs stage_location src_content meta).2.result_status
          = some ResultStatus.UPLOADED := by
  intro headers fs stage_location src_content meta
  constructor
  · cases h : pyIntOfGet (ciGet headers "Content-Length") with
    | ok n => simp [get_file_header, h]
    | exn e => simp [get_file_header, h]
  · rfl

/-- Claim C2 counterexample: with an unpopulated slot the completion
operation still builds the document and issues the POST — the result is
`ok` (the request is sent), not a rejection, and the second part carries
no ETag text. -/
theorem c2_counterexample_sends_with_missing_etag :
    complete_multipart_upload [some "etag-0", none] =
      .ok [{ etag_text := some "etag-0", part_number_text := "1" },
           { etag_text := none, part_number_text := "2" }] := by
  decide

/-- Helper: `complete_parts` preserves the slot count. -/
theorem complete_parts_length :
    ∀ (l : List (Option String)) (idx0 : Nat),
      (complete_parts idx0 l).length = l.length := by
  intro l
  induction l with
  | nil => intro idx0; rfl
  | cons e rest ih => intro idx0; simp [complete_parts, ih]

/-- Helper: slot `i` of the built document is the `Part` for etag slot
`i` with part number `idx0 + i + 1`. -/
theorem complete_parts_get? :
    ∀ (l : List (Option String)) (idx0 i : Nat),
      (complete_parts idx0 l).get? i = (l.get? i).map (fun e =>
        { etag_text := e, part_number_text := toString (idx0 + i + 1) }) := by
  intro l
  induction l with
  | nil => intro idx0 i; rfl
  | cons e rest ih =>
    intro idx0 i
    cases i with
    | zero => rfl
    | succ i =>
      simp only [complete_parts, List.get?_cons_succ, ih]
      have : idx0 + 1 + i = idx0 + (i + 1) := by omega
      rw [this]

/-- Claim C2 (amended): when some etag slot is still `None`, the
completion operation does not produce a document listing a
remote-assigned ETag for every part — the part for that slot carries no
ETag text — but it does not reject the call either: the document is
built and the POST is issued; the join barrier is left to the caller. -/
theorem c2_completion_not_rejected :
    ∀ (etags : List (Option String)) (i : Nat),
      etags.get? i = some none →
      complete_multipart_upload etags = .ok (complete_multipart_doc etags)
      ∧ (complete_multipart_doc etags).length = etags.length
      ∧ (complete_multipart_doc etags).get? i =
          some { etag_text := none, part_number_text := toString (i + 1) } := by
  intro etags i h
  refine ⟨rfl, complete_parts_length etags 0, ?_⟩
  rw [complete_multipart_doc, complete_parts_get?, h]
  simp

/-- Witness for C2: a two-slot etags list with slot 1 unpopulated is
still turned into a sent document whose second part has no ETag text. -/
theorem c2_completion_not_rejected_witness :
    complete_multipart_upload [some "e", none]
        = .ok (complete_multipart_doc [some "e", none])
    ∧ (complete_multipart_doc [some "e", none]).length = 2
    ∧ (complete_multipart_doc [some "e", none]).get? 1 =
        some { etag_text := none, part_number_text := "2" } := by
  have h := c2_completion_not_rejected [some "e", none] 1 (by decide)
  exact ⟨h.1, h.2.1.trans (by decide), h.2.2⟩

/-- Claim C8: the local upload records the declared upload size as the
final size and marks the job uploaded; the local download records the
stat-reported size of the just-written destination file (whatever the
declared size was) and marks the job downloaded. -/
theorem c8_local_result_fields :
    ∀ (fs : FS) (stage_location local_location : String)
      (src_content : Bytes) (meta : LocalMeta),
      ((upload_file_with_retry fs stage_location src_content meta).2.dst_file_size
          = meta.upload_size
        ∧ (upload_file_with_retry fs stage_location src_content meta).2.result_status
          = some ResultStatus.UPLOADED)
      ∧ (∀ (fs' : FS) (meta' : LocalMeta),
          download_file fs stage_location local_location meta
            = some (fs', meta') →
          meta'.dst_file_size =
            (((fsGet fs'
              (osPathJoin local_location (osPathBasename meta.dst_file_name))).getD
                []).length : Int)
          ∧ meta'.result_status = some ResultStatus.DOWNLOADED) := by
  intro fs stage_location local_location src_content meta
  refine ⟨⟨rfl, rfl⟩, ?_⟩
  intro fs' meta' h
  simp only [download_file] at h
  rcases hg : fsGet fs
      (osPathJoin stage_location (stripLeadingSep meta.src_file_name))
    with _ | content
  · rw [hg] at h
    simp at h
  · rw [hg] at h
    simp only [Option.map_some', Option.some.injEq] at h
    cases h
    exact ⟨rfl, rfl⟩

/-- Witness for C8: downloading a three-byte file with a declared upload
size of 99 records final size 3 (the actual size) and marks the job
downloaded. -/
theorem c8_local_result_fields_witness :
    ({ src_file_name := "f", dst_file_name := "g", upload_size := 99,
       dst_file_size := 3, result_status := some .DOWNLOADED }
        : LocalMeta).dst_file_size = 3
    ∧ ({ src_file_name := "f", dst_file_name := "g", upload_size := 99,
         dst_file_size := 3, result_status := some .DOWNLOADED }
        : LocalMeta).result_status = some ResultStatus.DOWNLOADED := by
  have h := (c8_local_result_fields [("stage/f", [1, 2, 3])] "stage" "loc" []
    { src_file_name := "f", dst_file_name := "g", upload_size := 99,
      dst_file_size := 0, result_status := none }).2
    [("loc/g", [1, 2, 3]), ("stage/f", [1, 2, 3])]
    { src_file_name := "f", dst_file_name := "g", upload_size := 99,
      dst_file_size := 3, result_status := some .DOWNLOADED } (by decide)
  exact ⟨h.1.trans (by decide), h.2⟩

end S2P
